import Mathlib

/-!
Shallow embedding of the network telemetry sampler in
`src/project/src-tauri/src/lib.rs` (floating-stats).

Modelling conventions:
- `u64`/`u32` byte counters and latencies are `Nat` (no overflow is
  exercised by the code paths under verification).
- `f64` speed / loss / time values are `ℚ`; the concrete values that the
  code manipulates (0.0, 100.0, small integer latencies, the threshold
  constants, byte-count ratios) are exactly representable, and the code
  never relies on rounding, so rational arithmetic is a faithful model.
- `Instant` timestamps are `ℚ` seconds; `Instant.duration_since`
  saturates at zero, which `durationSince` mirrors.
- Rust strings are `List Char`; the probe texts under analysis are
  ASCII, so char indices coincide with the byte indices used by the
  Rust slicing code.
- Subprocess results (`std::process::Command::output`) are modelled as
  `Except Unit (List Char)`: `Except.error` is a spawn failure, `Except.ok`
  carries the captured stdout.
-/

set_option allowUnsafeReducibility true

attribute [semireducible] Rat.add Rat.mul Rat.inv Rat.sub Rat.ofScientific

namespace FloatingStats

/-- Model of Rust `str::contains` (substring search) over char lists. -/
def containsSub (hay needle : List Char) : Bool :=
  hay.tails.any (fun t => needle.isPrefixOf t)

/-- Model of Rust `str::find` for a substring: index of the first

occurrence, if any. -/
def findSub (hay needle : List Char) : Option Nat :=
  (List.range (hay.length + 1)).find? (fun i => needle.isPrefixOf (hay.drop i))

/-- Model of Rust `str::rfind` for a single char: index of the last

occurrence, if any. -/
def rfindChar (hay : List Char) (c : Char) : Option Nat :=
  (hay.reverse.findIdx? (fun d => d = c)).map (fun i => hay.length - 1 - i)

/-- Strip one trailing carriage return, as Rust `str::lines` does. -/
def stripCR (l : List Char) : List Char :=
  if l.getLast? = some '\r' then l.dropLast else l

/-- Model of Rust `str::lines`: split at newline, drop an empty final

segment produced by a trailing newline, strip a trailing `\r` per line. -/
def rustLines (s : List Char) : List (List Char) :=
  if s = [] then []
  else
    (if s.getLast? = some '\n'
      then (s.splitOn '\n').dropLast
      else s.splitOn '\n').map stripCR

/-- Model of Rust `str::trim` (drop whitespace at both ends). -/
def trimChars (s : List Char) : List Char :=
  ((s.dropWhile Char.isWhitespace).reverse.dropWhile Char.isWhitespace).reverse

/-- Numeric value of a run of decimal digit characters. -/
def digitsVal (ds : List Char) : Nat :=
  ds.foldl (fun a c => a * 10 + (c.toNat - 48)) 0

/-- Model of Rust `str::parse::<f64>` restricted to finite decimal

literals: optional sign, decimal digits with an optional point, optional
exponent.  The special forms `inf` / `nan` are not modelled; the code only
ever feeds back small integer latencies, which this grammar covers exactly.
The result is the exact rational value of the literal. -/
def parseF64 (s : List Char) : Option ℚ :=
  let signRest : ℚ × List Char :=
    match s with
    | '+' :: r => (1, r)
    | '-' :: r => (-1, r)
    | r => (1, r)
  let sgn := signRest.1
  let r1 := signRest.2
  let ip := r1.takeWhile Char.isDigit
  let r2 := r1.dropWhile Char.isDigit
  let fracRest : List Char × List Char :=
    match r2 with
    | '.' :: r => (r.takeWhile Char.isDigit, r.dropWhile Char.isDigit)
    | r => ([], r)
  let fp := fracRest.1
  let r3 := fracRest.2
  if ip = [] ∧ fp = [] then none
  else
    let mant : ℚ := sgn * ((digitsVal ip : ℚ) + (digitsVal fp : ℚ) / ((10 ^ fp.length : Nat) : ℚ))
    match r3 with
    | [] => some mant
    | e :: r4 =>
      if e = 'e' ∨ e = 'E' then
        let signRest2 : Bool × List Char :=
          match r4 with
          | '+' :: r => (true, r)
          | '-' :: r => (false, r)
          | r => (true, r)
        let ed := signRest2.2.takeWhile Char.isDigit
        let r6 := signRest2.2.dropWhile Char.isDigit
        if ed = [] ∨ r6 ≠ [] then none
        else some (if signRest2.1
          then mant * ((10 ^ digitsVal ed : Nat) : ℚ)
          else mant / ((10 ^ digitsVal ed : Nat) : ℚ))
      else none

/-- Floor of a nonnegative rational as a natural number (zero for

nonpositive input). -/
def ratFloorToNat (q : ℚ) : Nat :=
  if q ≤ 0 then 0 else q.num.toNat / q.den

/-- Model of Rust `expr as u32` applied to an `f64`: truncation toward

zero, saturating at the `u32` bounds, negative values mapped to zero. -/
def f64AsU32 (q : ℚ) : Nat :=
  if q ≤ 0 then 0 else min (ratFloorToNat q) (2 ^ 32 - 1)

/-- One iteration of the latency-parsing loop body of

`ping_gateway_internal` (lib.rs lines 365-385) on a single line:
`some n` when the line yields a parsed latency (causing the Rust
`return`), `none` when the loop moves on. -/
def parseLine (line : List Char) : Option Nat :=
  if containsSub line ("ms".data) || containsSub line ("MS".data) then
    let msPos :=
      (match findSub line ("ms".data) with
        | some i => some i
        | none => findSub line ("MS".data)).getD 0
    if msPos > 2 then
      let beforeMs := line.take msPos
      match rfindChar beforeMs ' ' with
      | some lastSpace =>
        (parseF64 (trimChars (beforeMs.drop (lastSpace + 1)))).map f64AsU32
      | none =>
        match rfindChar beforeMs '=' with
        | some lastEq =>
          (parseF64 (trimChars (beforeMs.drop (lastEq + 1)))).map f64AsU32
        | none => none
    else none
  else none

/-- Classification of the ping stdout text, from `ping_gateway_internal`

(lib.rs lines 352-400): failure markers first, then the per-line latency
scan, then the TTL heuristics, otherwise a loss. -/
def classifyPingOutput (stdout : List Char) : Nat × ℚ :=
  if containsSub stdout ("100% loss".data) || containsSub stdout ("timed out".data) ||
      containsSub stdout ("unreachable".data) || containsSub stdout ("General failure".data) then
    (0, 100)
  else
    match (rustLines stdout).findSome? parseLine with
    | some latency => (latency, 0)
    | none =>
      if containsSub stdout ("bytes=".data) && containsSub stdout ("TTL=".data) then (1, 0)
      else if containsSub stdout ("TTL=".data) then (5, 0)
      else (0, 100)

/-- Model of `ping_gateway_internal` (lib.rs lines 317-406): the gateway

resolution only chooses the target address and does not affect the
returned pair, so the input is the result of the ping subprocess itself;
a spawn error yields `(0, 100.0)` (lib.rs lines 401-404). -/
def ping_gateway_internal : Except Unit (List Char) → Nat × ℚ
  | Except.ok stdout => classifyPingOutput stdout
  | Except.error _ => (0, 100)

/-- Status label published while no probe result is available

(lib.rs line 502). -/
def statusMeasuring : String := "检测中..."

/-- Status label for poor link quality (lib.rs line 504). -/
def statusPoor : String := "较差"

/-- Status label for fair link quality (lib.rs line 506). -/
def statusFair : String := "一般"

/-- Status label for good link quality (lib.rs line 508). -/
def statusGood : String := "良好"

/-- Model of the `NetworkStats` record (lib.rs lines 83-90): the

published snapshot.  `latency` is the `u32` field, the `f64` fields are
rationals, `status` is the display string. -/
structure NetworkStats where
  latency : Nat
  download_speed : ℚ
  upload_speed : ℚ
  packet_loss : ℚ
  status : String
deriving DecidableEq, Repr

/-- Value of `NetworkStats::default()`: zero numbers and the empty

status string. -/
def NetworkStats.default : NetworkStats :=
  { latency := 0, download_speed := 0, upload_speed := 0, packet_loss := 0, status := "" }

/-- Model of the `NetworkState` record (lib.rs lines 92-101): the single

shared mutable state of the sampler. -/
structure NetworkState where
  last_bytes_received : Nat
  last_bytes_sent : Nat
  last_bytes_update : Option ℚ
  current_stats : NetworkStats
  cached_received : Nat
  cached_sent : Nat
  last_latency_update : Option ℚ
deriving DecidableEq, Repr

/-- Value of `NetworkState::default()` created at process start

(lib.rs line 936). -/
def NetworkState.default : NetworkState :=
  { last_bytes_received := 0, last_bytes_sent := 0, last_bytes_update := none,
    current_stats := NetworkStats.default, cached_received := 0, cached_sent := 0,
    last_latency_update := none }

/-- Delta policy of `background_updater` (lib.rs lines 444-454): plain

difference when the counter did not go backwards, else the new absolute
value. -/
def computeDelta (current previous : Nat) : Nat :=
  if previous ≤ current then current - previous else current

/-- Raw per-direction rate (lib.rs lines 456-466): `delta / elapsed / 1024`,

guarded by `elapsed > 0.0`. -/
def rawSpeed (delta : Nat) (elapsed : ℚ) : ℚ :=
  if 0 < elapsed then ((delta : ℚ) / elapsed) / 1024 else 0

/-- Ceiling applied to each direction (lib.rs line 472): `1024000.0` kBps. -/
def SPEED_CAP : ℚ := 1024000

/-- The speed estimator as applied inside the `elapsed >= 0.5` branch

(lib.rs lines 456-472): raw rates capped at `SPEED_CAP`. -/
def estimateSpeed (deltaReceived deltaSent : Nat) (elapsed : ℚ) : ℚ × ℚ :=
  (min (rawSpeed deltaReceived elapsed) SPEED_CAP,
    min (rawSpeed deltaSent elapsed) SPEED_CAP)

/-- Status classifier (lib.rs lines 501-509), evaluated on the values

about to be published; `secondsSinceLastPing` is the pre-probe elapsed
value used by the grace test. -/
def classifyStatus (latency : Nat) (packetLoss : ℚ) (secondsSinceLastPing : Nat) : String :=
  if latency = 0 ∧ secondsSinceLastPing < 2 then statusMeasuring
  else if 100 < latency ∨ 5 < packetLoss then statusPoor
  else if 50 < latency ∨ 2 < packetLoss then statusFair
  else statusGood

/-- Model of `Instant::duration_since` in seconds: saturates at zero

when the earlier instant is later. -/
def durationSince (now earlier : ℚ) : ℚ :=
  max (now - earlier) 0

/-- Floor of a nonnegative duration to whole seconds

(`Duration::as_secs`). -/
def durationAsSecs (d : ℚ) : Nat :=
  ratFloorToNat d

/-- The `seconds_since_last_ping` computation (lib.rs lines 488-490):

whole seconds since the last probe, defaulting to 10 when no probe has
run yet. -/
def secsSinceLastPing (st : NetworkState) (now : ℚ) : Nat :=
  match st.last_latency_update with
  | some t => durationAsSecs (durationSince now t)
  | none => 10

deriving instance DecidableEq for Except

/-- External inputs consumed by one loop iteration: the current time,

the result of `get_network_bytes` (`none` models total failure, making
the loop fall back to the cached pair), and the ping subprocess result
(consumed only on probe ticks). -/
structure TickInput where
  now : ℚ
  bytes : Option (Nat × Nat)
  ping : Except Unit (List Char)
deriving DecidableEq

/-- Speed phase of one iteration (lib.rs lines 440-482).  Returns the

pair to publish together with the new `last_bytes_received`,
`last_bytes_sent` and `last_bytes_update` fields. -/
def tickSpeeds (st : NetworkState) (now : ℚ) (cr cs : Nat) :
    (ℚ × ℚ) × Nat × Nat × Option ℚ :=
  match st.last_bytes_update with
  | some lastTime =>
    let elapsed := durationSince now lastTime
    if 1/2 ≤ elapsed then
      (estimateSpeed (computeDelta cr st.last_bytes_received)
        (computeDelta cs st.last_bytes_sent) elapsed, cr, cs, some now)
    else
      ((st.current_stats.download_speed, st.current_stats.upload_speed),
        st.last_bytes_received, st.last_bytes_sent, st.last_bytes_update)
  | none =>
    ((0, 0), cr, cs, some now)

/-- One iteration of the `background_updater` loop body

(lib.rs lines 422-522): read counters with cached fallback, compute
speeds, refresh the cache, run the gateway probe when due, classify and
publish. -/
def tick (st : NetworkState) (inp : TickInput) : NetworkState :=
  let bytes := inp.bytes.getD (st.cached_received, st.cached_sent)
  let sp := tickSpeeds st inp.now bytes.1 bytes.2
  let sslp := secsSinceLastPing st inp.now
  let lp : Nat × ℚ :=
    if 10 ≤ sslp then ping_gateway_internal inp.ping
    else (st.current_stats.latency, st.current_stats.packet_loss)
  { last_bytes_received := sp.2.1
    last_bytes_sent := sp.2.2.1
    last_bytes_update := sp.2.2.2
    current_stats :=
      { latency := lp.1
        download_speed := sp.1.1
        upload_speed := sp.1.2
        packet_loss := lp.2
        status := classifyStatus lp.1 lp.2 sslp }
    cached_received := bytes.1
    cached_sent := bytes.2
    last_latency_update := if 10 ≤ sslp then some inp.now else st.last_latency_update }

/-- Iterated loop body over a sequence of tick inputs. -/
def runTicks (st : NetworkState) (inps : List TickInput) : NetworkState :=
  inps.foldl tick st

/-- Model of the `get_network_stats` command (lib.rs lines 526-532):

clone the published snapshot out of the shared state. -/
def get_network_stats (st : NetworkState) : NetworkStats :=
  st.current_stats

/-- A successful probe subprocess result: an echo reply carrying TTL

and byte markers but no time field, classified as `(1, 0.0)` by the
fallback branch at lib.rs line 388. -/
def okPing : Except Unit (List Char) :=
  Except.ok ("Reply from 192.168.1.1: bytes=32 TTL=64".data)

/-- Tick input at time `t` with idle byte counters and probe result `p`. -/
def inputAt (t : ℚ) (p : Except Unit (List Char)) : TickInput :=
  { now := t, bytes := some (0, 0), ping := p }

/-- Ten probe ticks, 10 s apart so each runs the gateway probe; the

third and fifth probes fail (transport error, recorded as losses), the
rest succeed.  A 10-sample rolling loss window would hold 2 losses. -/
def lossyRun : List TickInput :=
  [inputAt 0 okPing, inputAt 10 okPing, inputAt 20 (Except.error ()),
    inputAt 30 okPing, inputAt 40 (Except.error ()), inputAt 50 okPing,
    inputAt 60 okPing, inputAt 70 okPing, inputAt 80 okPing, inputAt 90 okPing]

/-- Fifteen probe ticks, 10 s apart, all succeeding. -/
def probeRunA : List TickInput :=
  (List.range 15).map (fun k => inputAt (10 * k) okPing)

/-- Same fifteen probe ticks except the tenth, which fails; the tenth

sample lies inside the last ten of fifteen. -/
def probeRunB : List TickInput :=
  (List.range 15).map (fun k => inputAt (10 * k) (if k = 9 then Except.error () else okPing))

/-- First-tick input of the end-to-end scenario: counters `(1000, 500)`

at time 0, probe reply available. -/
def c3Input : TickInput :=
  { now := 0, bytes := some (1000, 500), ping := okPing }

/-- A steady state with nonzero published speeds, byte baseline taken

at time 0 and a recent probe. -/
def c4State : NetworkState :=
  { last_bytes_received := 100, last_bytes_sent := 100, last_bytes_update := some 0,
    current_stats :=
      { latency := 20, download_speed := 5, upload_speed := 3, packet_loss := 0,
        status := statusGood },
    cached_received := 100, cached_sent := 100, last_latency_update := some 0 }

/-- A tick arriving 0.05 s after the baseline of `c4State`, with large

counter deltas pending. -/
def c4Input : TickInput :=
  { now := 1/20, bytes := some (999999, 888888), ping := Except.error () }

/-- Helper: on a tick whose probe is due, the published latency and loss

are exactly the classification of the current probe result. -/
theorem tick_probe_publishes (st : NetworkState) (inp : TickInput)
    (h : 10 ≤ secsSinceLastPing st inp.now) :
    (tick st inp).current_stats.latency = (ping_gateway_internal inp.ping).1 ∧
    (tick st inp).current_stats.packet_loss = (ping_gateway_internal inp.ping).2 := by
  simp [tick, h]

/-- Helper: every probe classification reports the loss field as exactly

0.0 or exactly 100.0. -/
theorem ping_loss_binary (x : Except Unit (List Char)) :
    (ping_gateway_internal x).2 = 0 ∨ (ping_gateway_internal x).2 = 100 := by
  cases x with
  | error e => right; rfl
  | ok s =>
    show (classifyPingOutput s).2 = 0 ∨ (classifyPingOutput s).2 = 100
    unfold classifyPingOutput
    split
    · right; rfl
    · split
      · left; rfl
      · split
        · left; rfl
        · split
          · left; rfl
          · right; rfl

/-- Helper: one tick preserves the binary range of the published loss. -/
theorem tick_loss_binary (st : NetworkState) (inp : TickInput)
    (h : st.current_stats.packet_loss = 0 ∨ st.current_stats.packet_loss = 100) :
    (tick st inp).current_stats.packet_loss = 0 ∨
      (tick st inp).current_stats.packet_loss = 100 := by
  simp only [tick]
  split
  · exact ping_loss_binary inp.ping
  · exact h

/-- Helper: any run of ticks preserves the binary range of the published

loss. -/
theorem runTicks_loss_binary (inps : List TickInput) (st : NetworkState)
    (h : st.current_stats.packet_loss = 0 ∨ st.current_stats.packet_loss = 100) :
    (runTicks st inps).current_stats.packet_loss = 0 ∨
      (runTicks st inps).current_stats.packet_loss = 100 := by
  induction inps generalizing st with
  | nil => exact h
  | cons a l ih => exact ih (tick st a) (tick_loss_binary st a h)

/-- Helper: outside the grace window the classifier never returns the

measuring label. -/
theorem classifyStatus_out_of_grace (l : Nat) (p : ℚ) (s : Nat) (hs : 2 ≤ s) :
    classifyStatus l p s ≠ statusMeasuring := by
  unfold classifyStatus
  rw [if_neg (by omega)]
  split_ifs <;> decide

/-- C1 counterexample: ten consecutive probe ticks, two of which lose

their packet (the published loss is 100.0 right after each loss, so both
losses were recorded).  A rolling 10-sample loss window would make the
final published loss `(2 / 10) * 100 = 20.0`, but the final tick
publishes the loss of its own probe alone: 0.0, never 20.0. -/
theorem rolling_loss_counterexample :
    (runTicks NetworkState.default (lossyRun.take 3)).current_stats.packet_loss = 100 ∧
    (runTicks NetworkState.default (lossyRun.take 5)).current_stats.packet_loss = 100 ∧
    (runTicks NetworkState.default lossyRun).last_latency_update = some 90 ∧
    (runTicks NetworkState.default lossyRun).current_stats.packet_loss = 0 ∧
    (runTicks NetworkState.default lossyRun).current_stats.packet_loss ≠ 20 := by
  decide

/-- C1 (amended): after every tick in which the gateway probe runs, the

published latency and packet loss equal the classification of that
single probe result; no rolling window average is involved. -/
theorem probe_tick_publishes_sample (st : NetworkState) (inp : TickInput)
    (h : 10 ≤ secsSinceLastPing st inp.now) :
    (tick st inp).current_stats.latency = (ping_gateway_internal inp.ping).1 ∧
    (tick st inp).current_stats.packet_loss = (ping_gateway_internal inp.ping).2 := by
  exact tick_probe_publishes st inp h

/-- C1 witness: the probe is due on a fresh state, and the first tick

publishes exactly the probe classification. -/
theorem probe_tick_publishes_sample_witness :
    10 ≤ secsSinceLastPing NetworkState.default (inputAt 0 okPing).now ∧
    (tick NetworkState.default (inputAt 0 okPing)).current_stats.latency =
      (ping_gateway_internal (inputAt 0 okPing).ping).1 ∧
    (tick NetworkState.default (inputAt 0 okPing)).current_stats.packet_loss =
      (ping_gateway_internal (inputAt 0 okPing).ping).2 := by
  have h : 10 ≤ secsSinceLastPing NetworkState.default (inputAt 0 okPing).now := by decide
  exact ⟨h, probe_tick_publishes_sample NetworkState.default (inputAt 0 okPing) h⟩

/-- C2 counterexample: two 15-probe runs that differ inside the last ten

samples (the tenth probe succeeds in one and fails in the other, and the
states right after the tenth tick differ) end in identical states.  A
state holding the last 10 samples in arrival order would have to differ,
so `NetworkState` keeps no such windows. -/
theorem window_capacity_counterexample :
    probeRunA.length = 15 ∧ probeRunB.length = 15 ∧
    probeRunA.drop 5 ≠ probeRunB.drop 5 ∧
    runTicks NetworkState.default (probeRunA.take 10) ≠
      runTicks NetworkState.default (probeRunB.take 10) ∧
    runTicks NetworkState.default probeRunA = runTicks NetworkState.default probeRunB := by
  decide

/-- C2 (amended): the state retains exactly one latency/loss sample, the

most recent: after any run of ticks ending in a probe tick, the published
latency and loss are those of the final probe alone, however many probes
preceded it. -/
theorem window_is_single_sample (st : NetworkState) (inps : List TickInput)
    (last : TickInput) (h : 10 ≤ secsSinceLastPing (runTicks st inps) last.now) :
    (runTicks st (inps ++ [last])).current_stats.latency =
      (ping_gateway_internal last.ping).1 ∧
    (runTicks st (inps ++ [last])).current_stats.packet_loss =
      (ping_gateway_internal last.ping).2 := by
  have heq : runTicks st (inps ++ [last]) = tick (runTicks st inps) last := by
    simp [runTicks, List.foldl_append]
  rw [heq]
  exact tick_probe_publishes (runTicks st inps) last h

/-- C2 witness: a two-tick run ending in a due probe publishes the last

probe result. -/
theorem window_is_single_sample_witness :
    10 ≤ secsSinceLastPing (runTicks NetworkState.default [inputAt 0 okPing])
      (inputAt 10 (Except.error ())).now ∧
    (runTicks NetworkState.default
        ([inputAt 0 okPing] ++ [inputAt 10 (Except.error ())])).current_stats.latency =
      (ping_gateway_internal (inputAt 10 (Except.error ())).ping).1 ∧
    (runTicks NetworkState.default
        ([inputAt 0 okPing] ++ [inputAt 10 (Except.error ())])).current_stats.packet_loss =
      (ping_gateway_internal (inputAt 10 (Except.error ())).ping).2 := by
  have h : 10 ≤ secsSinceLastPing (runTicks NetworkState.default [inputAt 0 okPing])
      (inputAt 10 (Except.error ())).now := by decide
  exact ⟨h, window_is_single_sample NetworkState.default [inputAt 0 okPing]
    (inputAt 10 (Except.error ())) h⟩

/-- C3 counterexample: the first tick after startup stores the baseline

`(1000, 500)` and publishes zero speeds, but its status is not the
measuring label: the probe interval defaults to 10 s on the first tick,
so the probe runs at once and the grace test `sslp < 2` fails, producing
a classified status (here the good label). -/
theorem first_tick_status_counterexample :
    NetworkState.default.last_bytes_update = none ∧
    (tick NetworkState.default c3Input).last_bytes_received = 1000 ∧
    (tick NetworkState.default c3Input).last_bytes_sent = 500 ∧
    (tick NetworkState.default c3Input).current_stats.download_speed = 0 ∧
    (tick NetworkState.default c3Input).current_stats.upload_speed = 0 ∧
    (tick NetworkState.default c3Input).current_stats.status = statusGood ∧
    (tick NetworkState.default c3Input).current_stats.status ≠ statusMeasuring := by
  decide

/-- C3 (amended): on the first tick the loop stores the read counters as

the baseline, records the sample time, computes no delta and publishes
zero speeds; but the gateway probe also runs immediately (its elapsed
value defaults to 10), the published latency/loss are that probe result,
and the published status is never the measuring label. -/
theorem first_tick_behavior (st : NetworkState) (inp : TickInput) (cr cs : Nat)
    (h1 : st.last_bytes_update = none) (h2 : st.last_latency_update = none)
    (hb : inp.bytes = some (cr, cs)) :
    (tick st inp).last_bytes_received = cr ∧
    (tick st inp).last_bytes_sent = cs ∧
    (tick st inp).last_bytes_update = some inp.now ∧
    (tick st inp).current_stats.download_speed = 0 ∧
    (tick st inp).current_stats.upload_speed = 0 ∧
    (tick st inp).current_stats.latency = (ping_gateway_internal inp.ping).1 ∧
    (tick st inp).current_stats.packet_loss = (ping_gateway_internal inp.ping).2 ∧
    (tick st inp).current_stats.status ≠ statusMeasuring := by
  have hs : secsSinceLastPing st inp.now = 10 := by
    simp [secsSinceLastPing, h2]
  refine ⟨?_, ?_, ?_, ?_, ?_, ?_, ?_, ?_⟩ <;>
    simp [tick, tickSpeeds, h1, hb, hs, classifyStatus_out_of_grace _ _ 10 (by omega)]

/-- C3 witness: the amended first-tick behavior at the scenario input

with counters `(1000, 500)`. -/
theorem first_tick_behavior_witness :
    NetworkState.default.last_bytes_update = none ∧
    NetworkState.default.last_latency_update = none ∧
    c3Input.bytes = some (1000, 500) ∧
    (tick NetworkState.default c3Input).last_bytes_received = 1000 ∧
    (tick NetworkState.default c3Input).current_stats.download_speed = 0 ∧
    (tick NetworkState.default c3Input).current_stats.status ≠ statusMeasuring := by
  have h := first_tick_behavior NetworkState.default c3Input 1000 500 rfl rfl rfl
  exact ⟨rfl, rfl, rfl, h.1, h.2.2.2.1, h.2.2.2.2.2.2.2⟩

/-- C4 counterexample: with the previous sample 0.05 s old (elapsed is

below 0.1) and nonzero previous published speeds, the tick returns the
previous speeds `(5, 3)`, not `(0, 0)`. -/
theorem short_elapsed_counterexample :
    c4State.last_bytes_update = some 0 ∧
    durationSince c4Input.now 0 < 1/10 ∧
    (tick c4State c4Input).current_stats.download_speed = 5 ∧
    (tick c4State c4Input).current_stats.upload_speed = 3 ∧
    ¬((tick c4State c4Input).current_stats.download_speed = 0 ∧
      (tick c4State c4Input).current_stats.upload_speed = 0) := by
  decide

/-- C4 (amended): when the elapsed time since the previous sample is

below the 0.5 s gate (in particular below 0.1 s), the tick republishes
the previous speeds unchanged, whatever the pending deltas; the result
is `(0, 0)` only when the previous published speeds were zero. -/
theorem short_elapsed_reuses_speeds (st : NetworkState) (inp : TickInput) (t : ℚ)
    (h1 : st.last_bytes_update = some t) (h2 : durationSince inp.now t < 1/2) :
    (tick st inp).current_stats.download_speed = st.current_stats.download_speed ∧
    (tick st inp).current_stats.upload_speed = st.current_stats.upload_speed := by
  have hne : ¬(1/2 ≤ durationSince inp.now t) := not_le.mpr h2
  constructor <;>
    · simp only [tick, tickSpeeds, h1]
      rw [if_neg hne]

/-- C4 witness: the amended reuse behavior at the concrete 0.05 s input. -/
theorem short_elapsed_reuses_speeds_witness :
    c4State.last_bytes_update = some 0 ∧
    durationSince c4Input.now 0 < 1/2 ∧
    (tick c4State c4Input).current_stats.download_speed =
      c4State.current_stats.download_speed ∧
    (tick c4State c4Input).current_stats.upload_speed =
      c4State.current_stats.upload_speed := by
  have h := short_elapsed_reuses_speeds c4State c4Input 0 rfl (by decide)
  exact ⟨rfl, by decide, h.1, h.2⟩

/-- C5: for all deltas and elapsed at least 0.5 s, the estimator returns

exactly `min(delta / elapsed / 1024, SPEED_CAP)` per direction, with the
fixed ceiling `SPEED_CAP = 1024000` kBps. -/
theorem speedEstimator_formula (dr ds : Nat) (e : ℚ) (h : 1/2 ≤ e) :
    estimateSpeed dr ds e =
      (min ((dr : ℚ) / e / 1024) SPEED_CAP, min ((ds : ℚ) / e / 1024) SPEED_CAP) := by
  have he : (0:ℚ) < e := lt_of_lt_of_le (by norm_num) h
  simp [estimateSpeed, rawSpeed, he]

/-- C5 witness: deltas `(8192, 1024)` over 1 s give download 8.0 kBps

and upload 1.0 kBps. -/
theorem speedEstimator_formula_witness :
    (1:ℚ)/2 ≤ 1 ∧ estimateSpeed 8192 1024 1 = (8, 1) := by
  refine ⟨by norm_num, ?_⟩
  rw [speedEstimator_formula 8192 1024 1 (by norm_num)]
  decide

/-- C6: the classifier is a total function; latency 0 inside the grace

window gives the measuring label for any loss; outside the grace test
the strict thresholds apply in order (above 100 ms or 5 percent is poor,
then above 50 ms or 2 percent is fair, else good); the boundary values
100 and 50 fall through to the next tier. -/
theorem classifyStatus_spec (l s t : Nat) (p x : ℚ) (hs : s < 2) :
    classifyStatus 0 x s = statusMeasuring ∧
    (¬(l = 0 ∧ t < 2) →
      ((100 < l ∨ 5 < p) → classifyStatus l p t = statusPoor) ∧
      (¬(100 < l ∨ 5 < p) → (50 < l ∨ 2 < p) → classifyStatus l p t = statusFair) ∧
      (¬(100 < l ∨ 5 < p) → ¬(50 < l ∨ 2 < p) → classifyStatus l p t = statusGood)) ∧
    classifyStatus 101 0 t = statusPoor ∧
    classifyStatus 60 0 t = statusFair ∧
    classifyStatus 10 0 t = statusGood ∧
    classifyStatus 100 0 t = statusFair ∧
    classifyStatus 50 0 t = statusGood := by
  refine ⟨?_, ?_, ?_, ?_, ?_, ?_, ?_⟩
  · unfold classifyStatus
    rw [if_pos ⟨rfl, hs⟩]
  · intro h
    refine ⟨fun hp => ?_, fun hnp hf => ?_, fun hnp hnf => ?_⟩
    · unfold classifyStatus
      rw [if_neg h, if_pos hp]
    · unfold classifyStatus
      rw [if_neg h, if_neg hnp, if_pos hf]
    · unfold classifyStatus
      rw [if_neg h, if_neg hnp, if_neg hnf]
  all_goals norm_num [classifyStatus]

/-- C6 witness: concrete classifications, including the grace window at

latency 0 and the strict boundary at 100 ms. -/
theorem classifyStatus_spec_witness :
    (1:Nat) < 2 ∧
    classifyStatus 0 3 1 = statusMeasuring ∧
    classifyStatus 101 6 0 = statusPoor ∧
    classifyStatus 100 0 0 = statusFair := by
  have h := classifyStatus_spec 101 1 0 6 3 (by decide)
  exact ⟨by decide, h.1, (h.2.1 (by decide)).1 (by norm_num), h.2.2.2.2.2.1⟩

/-- C7 counterexample: the text `xx time=23ms` contains the round-trip

field `time=23ms`, yet the parser takes the token after the last space
(`time=23`), fails to parse it, finds no TTL marker and reports a loss
`(0, 100.0)` instead of `(23, false)`. -/
theorem time_field_counterexample :
    containsSub ("xx time=23ms".data) ("time=23ms".data) = true ∧
    ping_gateway_internal (Except.ok ("xx time=23ms".data)) = (0, 100) ∧
    ping_gateway_internal (Except.ok ("xx time=23ms".data)) ≠ (23, 0) := by
  decide

/-- C7 (amended): any output containing one of the failure markers

yields latency 0 with a loss; any transport error yields latency 0 with
a loss and raises nothing; the output consisting of the line `time=23ms`
yields latency 23 with no loss.  A time field embedded after other
space-separated tokens is only parsed when the token directly before
`ms` is numeric. -/
theorem ping_classification_spec (s : List Char)
    (hm : (containsSub s ("100% loss".data) || containsSub s ("timed out".data) ||
      containsSub s ("unreachable".data) || containsSub s ("General failure".data)) = true) :
    ping_gateway_internal (Except.ok s) = (0, 100) ∧
    ping_gateway_internal (Except.error ()) = (0, 100) ∧
    ping_gateway_internal (Except.ok ("time=23ms".data)) = (23, 0) := by
  refine ⟨?_, by decide, by decide⟩
  show classifyPingOutput s = (0, 100)
  unfold classifyPingOutput
  rw [if_pos hm]

/-- C7 witness: the marker behavior at the scenario text containing

`Request timed out`. -/
theorem ping_classification_spec_witness :
    (containsSub ("Request timed out.".data) ("100% loss".data) ||
      containsSub ("Request timed out.".data) ("timed out".data) ||
      containsSub ("Request timed out.".data) ("unreachable".data) ||
      containsSub ("Request timed out.".data) ("General failure".data)) = true ∧
    ping_gateway_internal (Except.ok ("Request timed out.".data)) = (0, 100) ∧
    ping_gateway_internal (Except.ok ("time=23ms".data)) = (23, 0) := by
  have h := ping_classification_spec ("Request timed out.".data) (by decide)
  exact ⟨by decide, h.1, h.2.2⟩

/-- C8 counterexample: before any tick the reader returns the default

snapshot, whose status field is the empty string, not the measuring
label. -/
theorem initial_snapshot_counterexample :
    get_network_stats NetworkState.default = NetworkStats.default ∧
    (get_network_stats NetworkState.default).status = "" ∧
    (get_network_stats NetworkState.default).status ≠ statusMeasuring := by
  decide

/-- C8 (amended): the reader is total, always returning the published

snapshot held in the state; before any tick this is the default snapshot
with zero numbers and an empty status string (not the measuring label). -/
theorem get_network_stats_spec (st : NetworkState) :
    get_network_stats st = st.current_stats ∧
    get_network_stats NetworkState.default =
      { latency := 0, download_speed := 0, upload_speed := 0, packet_loss := 0,
        status := "" } := by
  exact ⟨rfl, rfl⟩

/-- C9: the delta policy returns the new absolute value on a counter

going backwards and the plain difference otherwise, and the result is
never negative. -/
theorem delta_policy (c p : Nat) :
    (c < p → computeDelta c p = c) ∧
    (p ≤ c → computeDelta c p = (c - p : Nat)) ∧
    0 ≤ (computeDelta c p : ℤ) := by
  refine ⟨fun h => ?_, fun h => ?_, Int.natCast_nonneg _⟩
  · unfold computeDelta
    rw [if_neg (by omega)]
  · unfold computeDelta
    rw [if_pos h]

/-- C9 witness: a rollover pair and a monotone pair. -/
theorem delta_policy_witness :
    (3 < 10 ∧ computeDelta 3 10 = 3) ∧ (10 ≤ 25 ∧ computeDelta 25 10 = 15) := by
  exact ⟨⟨by decide, (delta_policy 3 10).1 (by decide)⟩,
    ⟨by decide, (delta_policy 25 10).2.1 (by decide)⟩⟩

/-- C10: every probe classification reports loss 0.0 or 100.0, the

initial published loss is 0.0, and along every run of the loop from the
initial state the published loss field is exactly 0.0 or exactly 100.0,
never an intermediate percentage. -/
theorem published_loss_binary (inps : List TickInput) (x : Except Unit (List Char)) :
    ((ping_gateway_internal x).2 = 0 ∨ (ping_gateway_internal x).2 = 100) ∧
    NetworkState.default.current_stats.packet_loss = 0 ∧
    ((runTicks NetworkState.default inps).current_stats.packet_loss = 0 ∨
      (runTicks NetworkState.default inps).current_stats.packet_loss = 100) := by
  exact ⟨ping_loss_binary x, rfl,
    runTicks_loss_binary inps NetworkState.default (Or.inl rfl)⟩

end FloatingStats
